import Mathlib

/-!
# Video_Calling: the client component `App` (client/src/App.jsx)

A shallow embedding of the React component `App`: its state (`useState` cells
and refs), the four socket handlers registered on mount, and the user actions
`joinRoom` and `endCall`.

Modelling conventions.

* A handler runs against the committed state of the latest render and runs to
  completion before the next event is handled; `useState` setters are applied
  to the state record directly.
* Every call into a collaborator (media capture, the `RTCPeerConnection`, the
  socket) is appended to `AppState.calls` in program order, whether or not the
  call succeeds.  `alert` and `console` output are kept in separate lists.
* An `async` function that throws yields a rejected promise; the handler result
  `Outcome.thrown` records it.  State changes made before the throw are kept.
* The browser is a parameter (`Browser`).
-/

namespace VideoCalling

/-! ## Values exchanged with the collaborators -/

/-- A JavaScript exception value. -/
inductive JsError where
  | typeError
  | domException (name : String)
  deriving DecidableEq, Repr

/-- The `type` member of a session description. -/
inductive SdpType where
  | offer
  | answer
  deriving DecidableEq, Repr

/-- An `RTCSessionDescription` (also the plain object carried in a payload). -/
structure RTCSessionDescription where
  type : SdpType
  sdp : String
  deriving DecidableEq, Repr

/-- An `RTCIceCandidate` (also the plain object carried in a payload). -/
structure RTCIceCandidate where
  candidate : String
  deriving DecidableEq, Repr

/-- A `MediaStreamTrack`, identified by its id. -/
structure MediaStreamTrack where
  id : Nat
  deriving DecidableEq, Repr

/-- A `MediaStream`: `getTracks()` is `tracks`. -/
structure MediaStream where
  id : Nat
  tracks : List MediaStreamTrack
  deriving DecidableEq, Repr

/-- A `<video>` element, of which the component only touches `srcObject`. -/
structure HTMLVideoElement where
  srcObject : Option MediaStream
  deriving DecidableEq, Repr

/-- The observable state of one `RTCPeerConnection` object.  `room` is the
`roomId` captured by the `onicecandidate` closure installed in `joinRoom`. -/
structure RTCPeerConnection where
  id : Nat
  room : String
  senders : List MediaStreamTrack
  localDescription : Option RTCSessionDescription
  remoteDescription : Option RTCSessionDescription
  candidates : List RTCIceCandidate
  deriving DecidableEq, Repr

/-- Messages the client emits on the socket (`socket.emit`). -/
inductive Message where
  | joinRoom (roomId : String)
  | callUser (userToCall : String) (offer : RTCSessionDescription)
  | answerCall (recipient : String) (answer : RTCSessionDescription)
  | iceCandidate (recipient : String) (candidate : RTCIceCandidate)
  deriving DecidableEq, Repr

/-- Messages the client receives on the socket (`socket.on`). -/
inductive Signal where
  | userJoined (userId : String)
  | incomingCall (sender : String) (offer : RTCSessionDescription)
  | callAccepted (sender : String) (answer : RTCSessionDescription)
  | iceCandidate (sender : String) (candidate : RTCIceCandidate)
  deriving DecidableEq, Repr

/-- One call into a collaborator.  Connections are named by their `id`. -/
inductive Call where
  | getUserMedia
  | newRTCPeerConnection (pc : Nat)
  | addTrack (pc : Nat) (track : MediaStreamTrack)
  | createOffer (pc : Nat)
  | createAnswer (pc : Nat)
  | setLocalDescription (pc : Nat) (d : RTCSessionDescription)
  | setRemoteDescription (pc : Nat) (d : RTCSessionDescription)
  | addIceCandidate (pc : Nat) (c : RTCIceCandidate)
  | close (pc : Nat)
  | stop (track : MediaStreamTrack)
  | emit (m : Message)
  deriving DecidableEq, Repr

/-- A line written with `console.log` or `console.error`. -/
inductive ConsoleLine where
  | log (text : String) (arg : String)
  | error (text : String) (e : JsError)
  deriving DecidableEq, Repr

/-- The browser, taken as a parameter: media capture and the negotiation
primitive, with the contract of section 6 of the specification.
`getUserMedia` resolves with a stream or rejects; `createOffer` and
`createAnswer` return the SDP text of a description; `setRemoteDescription`
and `addIceCandidate` may reject (`some e`) or succeed (`none`), depending on
the connection and the argument; `setLocalDescription`, `addTrack`, `close` and
`stop` always succeed. -/
structure Browser where
  getUserMedia : Except JsError MediaStream
  createOffer : RTCPeerConnection → String
  createAnswer : RTCPeerConnection → String
  setRemoteDescription : RTCPeerConnection → RTCSessionDescription → Option JsError
  addIceCandidate : RTCPeerConnection → RTCIceCandidate → Option JsError

/-! ## Component state -/

/-- State of the component: the `useState` cells `roomId`, `joined`,
`localStream`; the refs `peerConnection`, `localVideoRef`, `remoteVideoRef`
(`none` is `null`); and the record of what the component did to the outside.
`connections` counts the `RTCPeerConnection` objects constructed so far and
gives the next one its identity. -/
structure AppState where
  roomId : String
  joined : Bool
  localStream : Option MediaStream
  peerConnection : Option RTCPeerConnection
  localVideoRef : Option HTMLVideoElement
  remoteVideoRef : Option HTMLVideoElement
  connections : Nat
  calls : List Call
  alerts : List String
  console : List ConsoleLine
  deriving DecidableEq, Repr

/-- Result of running a handler: the state it leaves and the error with which
its promise rejected, if any. -/
structure Outcome where
  state : AppState
  thrown : Option JsError
  deriving DecidableEq, Repr

/-- The component as first mounted. -/
def initial : AppState :=
  { roomId := "", joined := false, localStream := none, peerConnection := none,
    localVideoRef := none, remoteVideoRef := none, connections := 0,
    calls := [], alerts := [], console := [] }

/-- Record collaborator calls. -/
def AppState.call (s : AppState) (cs : List Call) : AppState :=
  { s with calls := s.calls ++ cs }

/-- Record a console line. -/
def AppState.print (s : AppState) (l : ConsoleLine) : AppState :=
  { s with console := s.console ++ [l] }

/-! ## `String.prototype.trim` -/

/-- The code points ECMAScript calls WhiteSpace or LineTerminator. -/
def isWhiteSpace (c : Char) : Bool :=
  let n := c.toNat
  n == 0x09 || n == 0x0A || n == 0x0B || n == 0x0C || n == 0x0D || n == 0x20 ||
  n == 0xA0 || n == 0x1680 || (0x2000 ≤ n && n ≤ 0x200A) || n == 0x2028 ||
  n == 0x2029 || n == 0x202F || n == 0x205F || n == 0x3000 || n == 0xFEFF

/-- The method `trim`: strip whitespace from both ends. -/
def trim (s : String) : String :=
  String.mk ((s.data.dropWhile isWhiteSpace).reverse.dropWhile isWhiteSpace).reverse

/-! ## The component's functions -/

/-- The function `callUser` (lines 95-99). -/
def callUser (env : Browser) (userId : String) (s : AppState) : Outcome :=
  match s.peerConnection with
  | none => { state := s, thrown := some .typeError }
  | some pc =>
    let offer : RTCSessionDescription := { type := .offer, sdp := env.createOffer pc }
    let s := s.call [.createOffer pc.id]
    let pc := { pc with localDescription := some offer }
    let s := { s.call [.setLocalDescription pc.id offer] with peerConnection := some pc }
    { state := s.call [.emit (.callUser userId offer)], thrown := none }

/-- The function `answerCall` (lines 101-106). -/
def answerCall (env : Browser) (sender : String) (offer : RTCSessionDescription)
    (s : AppState) : Outcome :=
  match s.peerConnection with
  | none => { state := s, thrown := some .typeError }
  | some pc =>
    let s := s.call [.setRemoteDescription pc.id offer]
    match env.setRemoteDescription pc offer with
    | some e => { state := s, thrown := some e }
    | none =>
      let pc := { pc with remoteDescription := some offer }
      let answer : RTCSessionDescription := { type := .answer, sdp := env.createAnswer pc }
      let s := s.call [.createAnswer pc.id]
      let pc := { pc with localDescription := some answer }
      let s := { s.call [.setLocalDescription pc.id answer] with peerConnection := some pc }
      { state := s.call [.emit (.answerCall sender answer)], thrown := none }

/-- The handler of `user-joined` (lines 24-27). -/
def onUserJoined (env : Browser) (userId : String) (s : AppState) : Outcome :=
  callUser env userId (s.print (.log "User joined, initiating call:" userId))

/-- The handler of `incoming-call` (lines 29-32). -/
def onIncomingCall (env : Browser) (sender : String) (offer : RTCSessionDescription)
    (s : AppState) : Outcome :=
  answerCall env sender offer (s.print (.log "Incoming call from:" sender))

/-- The handler of `call-accepted` (lines 34-37). -/
def onCallAccepted (env : Browser) (sender : String) (answer : RTCSessionDescription)
    (s : AppState) : Outcome :=
  let s := s.print (.log "Call accepted by:" sender)
  match s.peerConnection with
  | none => { state := s, thrown := some .typeError }
  | some pc =>
    let s := s.call [.setRemoteDescription pc.id answer]
    match env.setRemoteDescription pc answer with
    | some e => { state := s, thrown := some e }
    | none =>
      let pc := { pc with remoteDescription := some answer }
      { state := { s with peerConnection := some pc }, thrown := none }

/-- The handler of `ice-candidate` (lines 39-46); the `try`/`catch` encloses
the dereference of `peerConnection.current`. -/
def onIceCandidate (env : Browser) (sender : String) (candidate : RTCIceCandidate)
    (s : AppState) : Outcome :=
  let s := s.print (.log "ICE candidate received from:" sender)
  match s.peerConnection with
  | none =>
    { state := s.print (.error "Error adding received ice candidate" .typeError),
      thrown := none }
  | some pc =>
    let s := s.call [.addIceCandidate pc.id candidate]
    match env.addIceCandidate pc candidate with
    | some e =>
      { state := s.print (.error "Error adding received ice candidate" e), thrown := none }
    | none =>
      let pc := { pc with candidates := pc.candidates ++ [candidate] }
      { state := { s with peerConnection := some pc }, thrown := none }

/-- Dispatch of an inbound socket message to its registered handler
(the `useEffect` of lines 23-54). -/
def handleSignal (env : Browser) (m : Signal) (s : AppState) : Outcome :=
  match m with
  | .userJoined userId => onUserJoined env userId s
  | .incomingCall sender offer => onIncomingCall env sender offer s
  | .callAccepted sender answer => onCallAccepted env sender answer s
  | .iceCandidate sender candidate => onIceCandidate env sender candidate s

/-- The function `joinRoom` (lines 56-93). -/
def joinRoom (env : Browser) (s : AppState) : Outcome :=
  if trim s.roomId = "" then
    { state := { s with alerts := s.alerts ++ ["Enter a room ID to join."] }, thrown := none }
  else
    let s := s.call [.getUserMedia]
    match env.getUserMedia with
    | .error e =>
      let s := s.print (.error "Error accessing media devices:" e)
      { state := { s with alerts := s.alerts ++
                    ["Could not access camera/microphone. Please allow permissions."] },
        thrown := none }
    | .ok stream =>
      let s := { s with localStream := some stream }
      let pc : RTCPeerConnection :=
        { id := s.connections, room := s.roomId, senders := [],
          localDescription := none, remoteDescription := none, candidates := [] }
      let s := { s.call [.newRTCPeerConnection pc.id] with connections := s.connections + 1 }
      let s := s.call (stream.tracks.map (.addTrack pc.id))
      let pc := { pc with senders := stream.tracks }
      let s := { s with peerConnection := some pc }
      let s := s.call [.emit (.joinRoom s.roomId)]
      { state := { s with joined := true }, thrown := none }

/-- The function `endCall` (lines 108-129). -/
def endCall (s : AppState) : Outcome :=
  let s := match s.localStream with
    | some stream => s.call (stream.tracks.map .stop)
    | none => s
  let s := match s.peerConnection with
    | some pc => { s.call [.close pc.id] with peerConnection := none }
    | none => s
  let s := match s.remoteVideoRef with
    | some v => { s with remoteVideoRef := some { v with srcObject := none } }
    | none => s
  let s := { s with localStream := none }
  { state := { s with joined := false }, thrown := none }

/-- The callback `pc.onicecandidate` installed by `joinRoom` (lines 71-75);
`none` is the end-of-candidates event. -/
def onicecandidate (candidate : Option RTCIceCandidate) (s : AppState) : Outcome :=
  match s.peerConnection, candidate with
  | some pc, some c => { state := s.call [.emit (.iceCandidate pc.room c)], thrown := none }
  | _, _ => { state := s, thrown := none }

/-- The callback `pc.ontrack` installed by `joinRoom` (lines 78-80). -/
def ontrack (streams : List MediaStream) (s : AppState) : Outcome :=
  match s.remoteVideoRef with
  | none => { state := s, thrown := some .typeError }
  | some _ => { state := { s with remoteVideoRef := some { srcObject := streams.head? } },
                thrown := none }

/-- React commit after a handler changed state: the two `<video>` elements are
rendered exactly while `joined` (lines 137-181), and the effect of lines 16-21
runs when `localStream` changed. -/
def commit (prev next : AppState) : AppState :=
  let next :=
    if next.joined then
      { next with
        localVideoRef := some (next.localVideoRef.getD { srcObject := none }),
        remoteVideoRef := some (next.remoteVideoRef.getD { srcObject := none }) }
    else
      { next with localVideoRef := none, remoteVideoRef := none }
  if prev.localStream = next.localStream then next
  else
    match next.localVideoRef, next.localStream with
    | some _, some stream => { next with localVideoRef := some { srcObject := some stream } }
    | _, _ => next

/-- Handle inbound messages one after the other; a rejected handler does not
stop the next one.  Returns the final state and, per message, what was thrown. -/
def handleAll (env : Browser) : List Signal → AppState → AppState × List (Option JsError)
  | [], s => (s, [])
  | m :: ms, s =>
    let r := handleSignal env m s
    let rest := handleAll env ms r.state
    (rest.1, r.thrown :: rest.2)

/-- The calls issued between an earlier state and a later one. -/
def issued (before after : AppState) : List Call :=
  after.calls.drop before.calls.length

/-- What can happen to the mounted component: the user edits the room id
field (line 143), clicks Join Room or End Call, the socket delivers a message,
or the current connection fires `icecandidate` or `track`. -/
inductive Event where
  | input (value : String)
  | clickJoin
  | clickEnd
  | signal (m : Signal)
  | icecandidate (candidate : Option RTCIceCandidate)
  | track (streams : List MediaStream)
  deriving DecidableEq, Repr

/-- The handler attached to each event. -/
def handle (env : Browser) (ev : Event) (s : AppState) : Outcome :=
  match ev with
  | .input value => { state := { s with roomId := value }, thrown := none }
  | .clickJoin => joinRoom env s
  | .clickEnd => endCall s
  | .signal m => handleSignal env m s
  | .icecandidate candidate => onicecandidate candidate s
  | .track streams => ontrack streams s

/-- One event: its handler runs, then React commits the render. -/
def step (env : Browser) (ev : Event) (s : AppState) : AppState :=
  commit s (handle env ev s).state

/-- The states the component can be in: the mounted one, and what any event
under any browser behaviour leads to. -/
inductive Reachable : AppState → Prop where
  | mount : Reachable initial
  | step (env : Browser) (ev : Event) (s : AppState) :
      Reachable s → Reachable (step env ev s)

/-- The stream, the connection and the two video elements exist exactly while
`joined`. -/
def Consistent (s : AppState) : Prop :=
  s.localStream.isSome = s.joined ∧ s.peerConnection.isSome = s.joined ∧
  s.localVideoRef.isSome = s.joined ∧ s.remoteVideoRef.isSome = s.joined

/-- No session: not joined, no local stream, no peer connection. -/
def Idle (s : AppState) : Prop :=
  s.joined = false ∧ s.localStream = none ∧ s.peerConnection = none

instance (s : AppState) : Decidable (Idle s) := by
  unfold Idle; infer_instance

/-! ## Concrete browsers and states used to instantiate the theorems -/

/-- A browser that grants the camera, rejects a session description with empty
SDP text, and rejects a candidate while no remote description is set. -/
def chrome : Browser :=
  { getUserMedia := .ok { id := 7, tracks := [{ id := 1 }, { id := 2 }] },
    createOffer := fun _ => "v=0 offer",
    createAnswer := fun _ => "v=0 answer",
    setRemoteDescription := fun _ d =>
      if d.sdp = "" then some (.domException "OperationError") else none,
    addIceCandidate := fun pc _ =>
      if pc.remoteDescription.isSome then none else some (.domException "InvalidStateError") }

/-- A browser in which the user refuses camera and microphone access. -/
def denied : Browser :=
  { chrome with getUserMedia := .error (.domException "NotAllowedError") }

/-- The user has typed the room id `r1`. -/
def typed : AppState := { initial with roomId := "r1" }

/-- The state after a successful `joinRoom` in room `r1`, rendered. -/
def inRoom : AppState := commit typed (joinRoom chrome typed).state

/-- The state after `inRoom` was told that peer `B` joined, and so sent its offer. -/
def offering : AppState := (handleSignal chrome (.userJoined "B") inRoom).state

/-- The state after `inRoom` ended the call, rendered. -/
def ended : AppState := commit inRoom (endCall inRoom).state

/-! ## Auxiliary facts -/

theorem issued_append (s r : AppState) (cs : List Call) (h : r.calls = s.calls ++ cs) :
    issued s r = cs := by
  simp [issued, h]

theorem trim_of_whiteSpace (room : String) (h : ∀ c ∈ room.data, isWhiteSpace c = true) :
    trim room = "" := by
  have h1 : room.data.dropWhile isWhiteSpace = [] := by
    rw [List.dropWhile_eq_nil_iff]
    exact h
  simp [trim, h1]

/-- What `callUser` does when a connection is present. -/
theorem callUser_active (env : Browser) (u : String) (s : AppState) (pc : RTCPeerConnection)
    (h : s.peerConnection = some pc) :
    callUser env u s =
      { state :=
          { s with
            peerConnection :=
              some { pc with localDescription := some { type := .offer, sdp := env.createOffer pc } },
            calls := s.calls ++
              [.createOffer pc.id,
               .setLocalDescription pc.id { type := .offer, sdp := env.createOffer pc },
               .emit (.callUser u { type := .offer, sdp := env.createOffer pc })] },
        thrown := none } := by
  simp [callUser, h, AppState.call]

/-- What `answerCall` records when a connection is present. -/
theorem answerCall_active (env : Browser) (f : String) (o : RTCSessionDescription)
    (s : AppState) (pc : RTCPeerConnection) (h : s.peerConnection = some pc) :
    (answerCall env f o s).thrown = env.setRemoteDescription pc o ∧
    (answerCall env f o s).state.calls =
      s.calls ++ .setRemoteDescription pc.id o ::
        (match env.setRemoteDescription pc o with
         | some _ => []
         | none =>
           [.createAnswer pc.id,
            .setLocalDescription pc.id
              { type := .answer, sdp := env.createAnswer { pc with remoteDescription := some o } },
            .emit (.answerCall f
              { type := .answer,
                sdp := env.createAnswer { pc with remoteDescription := some o } })]) := by
  cases hr : env.setRemoteDescription pc o <;> simp [answerCall, h, hr, AppState.call]

/-- What the `ice-candidate` handler does when a connection is present: the
candidate goes to `addIceCandidate` at once, and the same connection stays. -/
theorem onIceCandidate_active (env : Browser) (f : String) (c : RTCIceCandidate)
    (s : AppState) (pc : RTCPeerConnection) (h : s.peerConnection = some pc) :
    (onIceCandidate env f c s).thrown = none ∧
    (onIceCandidate env f c s).state.calls = s.calls ++ [.addIceCandidate pc.id c] ∧
    ∃ pc2, (onIceCandidate env f c s).state.peerConnection = some pc2 ∧ pc2.id = pc.id := by
  cases hr : env.addIceCandidate pc c <;>
    simp [onIceCandidate, h, hr, AppState.call, AppState.print]

/-- A run of `ice-candidate` messages over an active connection. -/
theorem handleAll_iceCandidates (env : Browser) (msgs : List (String × RTCIceCandidate)) :
    ∀ (s : AppState) (pc : RTCPeerConnection), s.peerConnection = some pc →
      (handleAll env (msgs.map fun m => Signal.iceCandidate m.1 m.2) s).1.calls =
        s.calls ++ msgs.map (fun m => Call.addIceCandidate pc.id m.2) ∧
      (handleAll env (msgs.map fun m => Signal.iceCandidate m.1 m.2) s).2 =
        msgs.map (fun _ => none) ∧
      ∃ pc2, (handleAll env (msgs.map fun m => Signal.iceCandidate m.1 m.2) s).1.peerConnection
          = some pc2 ∧ pc2.id = pc.id := by
  induction msgs with
  | nil =>
    intro s pc h
    exact ⟨by simp [handleAll], by simp [handleAll], pc, by simpa [handleAll] using h, rfl⟩
  | cons m ms ih =>
    intro s pc h
    obtain ⟨hthrown, hcalls, pc1, hpc1, hid1⟩ := onIceCandidate_active env m.1 m.2 s pc h
    obtain ⟨hc, ht, pc2, hpc2, hid2⟩ := ih (onIceCandidate env m.1 m.2 s).state pc1 hpc1
    refine ⟨?_, ?_, pc2, ?_, hid2.trans hid1⟩
    · simp only [List.map_cons, handleAll, handleSignal]
      rw [hc, hcalls, hid1]
      simp
    · simp only [List.map_cons, handleAll, handleSignal]
      rw [ht, hthrown]
    · simpa only [List.map_cons, handleAll, handleSignal] using hpc2

/-- What the `call-accepted` handler records when a connection is present. -/
theorem onCallAccepted_active (env : Browser) (f : String) (d : RTCSessionDescription)
    (s : AppState) (pc : RTCPeerConnection) (h : s.peerConnection = some pc) :
    (onCallAccepted env f d s).thrown = env.setRemoteDescription pc d ∧
    (onCallAccepted env f d s).state.calls = s.calls ++ [.setRemoteDescription pc.id d] := by
  cases hr : env.setRemoteDescription pc d <;>
    simp [onCallAccepted, h, hr, AppState.call, AppState.print]

/-- What `joinRoom` does when the room id is not blank and media is granted. -/
theorem joinRoom_granted (env : Browser) (s : AppState) (stream : MediaStream)
    (hroom : trim s.roomId ≠ "") (hmedia : env.getUserMedia = .ok stream) :
    joinRoom env s =
      { state :=
          { s with
            localStream := some stream,
            peerConnection :=
              some { id := s.connections, room := s.roomId, senders := stream.tracks,
                     localDescription := none, remoteDescription := none, candidates := [] },
            connections := s.connections + 1,
            calls := s.calls ++
              ([.getUserMedia, .newRTCPeerConnection s.connections] ++
                stream.tracks.map (.addTrack s.connections) ++ [.emit (.joinRoom s.roomId)]),
            joined := true },
        thrown := none } := by
  simp [joinRoom, hroom, hmedia, AppState.call]

/-- What `endCall` does when a stream and a connection are present. -/
theorem endCall_active (s : AppState) (stream : MediaStream) (pc : RTCPeerConnection)
    (hs : s.localStream = some stream) (hp : s.peerConnection = some pc) :
    (endCall s).thrown = none ∧
    (endCall s).state.calls = s.calls ++ (stream.tracks.map .stop ++ [.close pc.id]) ∧
    (endCall s).state.joined = false ∧
    (endCall s).state.localStream = none ∧
    (endCall s).state.peerConnection = none := by
  cases hv : s.remoteVideoRef <;> simp [endCall, hs, hp, hv, AppState.call]

/-- The commit touches the two video refs only. -/
theorem commit_fields (prev next : AppState) :
    (commit prev next).calls = next.calls ∧
    (commit prev next).joined = next.joined ∧
    (commit prev next).localStream = next.localStream ∧
    (commit prev next).peerConnection = next.peerConnection := by
  unfold commit
  by_cases hj : next.joined = true <;> by_cases hl : prev.localStream = next.localStream <;>
    cases hs : next.localStream <;> simp_all

/-- A commit restores consistency of the video refs. -/
theorem commit_consistent (prev next : AppState)
    (h1 : next.localStream.isSome = next.joined) (h2 : next.peerConnection.isSome = next.joined) :
    Consistent (commit prev next) := by
  unfold Consistent commit
  by_cases hj : next.joined = true <;> by_cases hl : prev.localStream = next.localStream <;>
    cases hs : next.localStream <;> simp_all

/-- Socket handlers never set or clear the state cells or the connection ref. -/
theorem handleSignal_keeps (env : Browser) (m : Signal) (s : AppState) :
    (handleSignal env m s).state.joined = s.joined ∧
    (handleSignal env m s).state.localStream = s.localStream ∧
    (handleSignal env m s).state.peerConnection.isSome = s.peerConnection.isSome := by
  cases m with
  | userJoined u =>
    cases hp : s.peerConnection <;>
      simp [handleSignal, onUserJoined, callUser, AppState.print, AppState.call, hp]
  | incomingCall f o =>
    cases hp : s.peerConnection with
    | none => simp [handleSignal, onIncomingCall, answerCall, AppState.print, hp]
    | some pc =>
      cases hr : env.setRemoteDescription pc o <;>
        simp [handleSignal, onIncomingCall, answerCall, AppState.print, AppState.call, hp, hr]
  | callAccepted f d =>
    cases hp : s.peerConnection with
    | none => simp [handleSignal, onCallAccepted, AppState.print, hp]
    | some pc =>
      cases hr : env.setRemoteDescription pc d <;>
        simp [handleSignal, onCallAccepted, AppState.print, AppState.call, hp, hr]
  | iceCandidate f c =>
    cases hp : s.peerConnection with
    | none => simp [handleSignal, onIceCandidate, AppState.print, hp]
    | some pc =>
      cases hr : env.addIceCandidate pc c <;>
        simp [handleSignal, onIceCandidate, AppState.print, AppState.call, hp, hr]

/-- Every handler keeps stream and connection in step with `joined`. -/
theorem handle_keeps_consistent (env : Browser) (ev : Event) (s : AppState)
    (h : Consistent s) :
    (handle env ev s).state.localStream.isSome = (handle env ev s).state.joined ∧
    (handle env ev s).state.peerConnection.isSome = (handle env ev s).state.joined := by
  obtain ⟨h1, h2, _, _⟩ := h
  cases ev with
  | input value => exact ⟨h1, h2⟩
  | clickJoin =>
    by_cases hroom : trim s.roomId = ""
    · simp [handle, joinRoom, hroom, h1, h2]
    · cases hm : env.getUserMedia <;>
        simp [handle, joinRoom, hroom, hm, AppState.call, AppState.print, h1, h2]
  | clickEnd =>
    cases hs : s.localStream <;> cases hp : s.peerConnection <;>
      cases hv : s.remoteVideoRef <;> simp [handle, endCall, hs, hp, hv, AppState.call]
  | signal m =>
    obtain ⟨k1, k2, k3⟩ := handleSignal_keeps env m s
    simp only [handle]
    rw [k1, k2, k3]
    exact ⟨h1, h2⟩
  | icecandidate c =>
    cases hp : s.peerConnection <;> cases c <;>
      simp_all [handle, onicecandidate, AppState.call]
  | track streams =>
    cases hv : s.remoteVideoRef <;> simp_all [handle, ontrack]

/-- Every reachable state is consistent. -/
theorem reachable_consistent (s : AppState) (h : Reachable s) : Consistent s := by
  induction h with
  | mount => simp [Consistent, initial]
  | step env ev s _ ih =>
    obtain ⟨k1, k2⟩ := handle_keeps_consistent env ev s ih
    exact commit_consistent s _ k1 k2

/-- The concrete states used below are reachable from the mounted component. -/
theorem reachable_examples :
    Reachable typed ∧ Reachable inRoom ∧ Reachable offering ∧ Reachable ended := by
  have h1 : Reachable typed := by
    have h := Reachable.step chrome (.input "r1") initial .mount
    have e : step chrome (.input "r1") initial = typed := by decide
    rwa [e] at h
  have h2 : Reachable inRoom := by
    have h := Reachable.step chrome .clickJoin typed h1
    have e : step chrome .clickJoin typed = inRoom := by decide
    rwa [e] at h
  have h3 : Reachable offering := by
    have h := Reachable.step chrome (.signal (.userJoined "B")) inRoom h2
    have e : step chrome (.signal (.userJoined "B")) inRoom = offering := by decide
    rwa [e] at h
  have h4 : Reachable ended := by
    have h := Reachable.step chrome .clickEnd inRoom h2
    have e : step chrome .clickEnd inRoom = ended := by decide
    rwa [e] at h
  exact ⟨h1, h2, h3, h4⟩

/-! ## The claims -/

/-- C1: with a peer connection present, handling `user-joined(u)` performs, in
this order and nothing else, `createOffer`, `setLocalDescription` with the
offer just created, and the emission of one `call-user` message whose
`userToCall` is `u` and whose `offer` is that same offer; the handler does not
throw. -/
theorem userJoined_creates_and_sends_offer (env : Browser) (s : AppState)
    (pc : RTCPeerConnection) (u : String) (h : s.peerConnection = some pc) :
    (handleSignal env (.userJoined u) s).thrown = none ∧
    (handleSignal env (.userJoined u) s).state.calls =
      s.calls ++
        [.createOffer pc.id,
         .setLocalDescription pc.id { type := .offer, sdp := env.createOffer pc },
         .emit (.callUser u { type := .offer, sdp := env.createOffer pc })] := by
  have hp : (s.print (.log "User joined, initiating call:" u)).peerConnection = some pc := h
  simp only [handleSignal, onUserJoined]
  rw [callUser_active env u _ pc hp]
  simp [AppState.print]

/-- Instance of C1: the joined client in room r1 is told that B joined. -/
theorem userJoined_creates_and_sends_offer_witness :
    inRoom.peerConnection =
      some { id := 0, room := "r1", senders := [{ id := 1 }, { id := 2 }],
             localDescription := none, remoteDescription := none, candidates := [] } ∧
    (handleSignal chrome (.userJoined "B") inRoom).thrown = none ∧
    (handleSignal chrome (.userJoined "B") inRoom).state.calls =
      inRoom.calls ++
        [.createOffer 0,
         .setLocalDescription 0 { type := .offer, sdp := "v=0 offer" },
         .emit (.callUser "B" { type := .offer, sdp := "v=0 offer" })] :=
  ⟨by decide,
   userJoined_creates_and_sends_offer chrome inRoom
     { id := 0, room := "r1", senders := [{ id := 1 }, { id := 2 }],
       localDescription := none, remoteDescription := none, candidates := [] }
     "B" (by decide)⟩

/-- C5: when the room id is non-empty after trimming and `getUserMedia`
rejects, `joinRoom` requests the media and does nothing else outside: no
message is emitted, no connection is constructed, `peerConnection`,
`localStream` and `joined` keep their values (an idle state stays idle), the
user sees an alert, and nothing is thrown. -/
theorem joinRoom_media_refused (env : Browser) (s : AppState) (e : JsError)
    (hroom : trim s.roomId ≠ "") (hmedia : env.getUserMedia = .error e) :
    (joinRoom env s).thrown = none ∧
    (joinRoom env s).state.calls = s.calls ++ [.getUserMedia] ∧
    (∀ m, Call.emit m ∉ issued s (joinRoom env s).state) ∧
    (∀ n, Call.newRTCPeerConnection n ∉ issued s (joinRoom env s).state) ∧
    (joinRoom env s).state.connections = s.connections ∧
    (joinRoom env s).state.peerConnection = s.peerConnection ∧
    (joinRoom env s).state.localStream = s.localStream ∧
    (joinRoom env s).state.joined = s.joined ∧
    (Idle s → Idle (joinRoom env s).state) ∧
    (joinRoom env s).state.alerts =
      s.alerts ++ ["Could not access camera/microphone. Please allow permissions."] := by
  have hr : joinRoom env s =
      { state :=
          { s with
            calls := s.calls ++ [.getUserMedia],
            console := s.console ++ [.error "Error accessing media devices:" e],
            alerts := s.alerts ++
              ["Could not access camera/microphone. Please allow permissions."] },
        thrown := none } := by
    simp [joinRoom, hroom, hmedia, AppState.call, AppState.print]
  have hi : issued s (joinRoom env s).state = [.getUserMedia] :=
    issued_append _ _ _ (by rw [hr])
  refine ⟨by rw [hr], by rw [hr], ?_, ?_, by rw [hr], by rw [hr], by rw [hr], by rw [hr], ?_,
    by rw [hr]⟩
  · intro m
    simp [hi]
  · intro n
    simp [hi]
  · intro hidle
    rw [hr]
    exact hidle

/-- Instance of C5: room r1 is typed and the user refuses camera access. -/
theorem joinRoom_media_refused_witness :
    trim typed.roomId ≠ "" ∧ denied.getUserMedia = .error (.domException "NotAllowedError") ∧
    (joinRoom denied typed).state.calls = typed.calls ++ [.getUserMedia] ∧
    (joinRoom denied typed).state.peerConnection = none ∧
    (joinRoom denied typed).state.joined = false :=
  ⟨by decide, rfl,
   (joinRoom_media_refused denied typed _ (by decide) rfl).2.1,
   (joinRoom_media_refused denied typed _ (by decide) rfl).2.2.2.2.2.1,
   (joinRoom_media_refused denied typed _ (by decide) rfl).2.2.2.2.2.2.2.1⟩

/-- C6: when the room id is empty or consists only of whitespace, `joinRoom`
only shows the alert asking for a room id: media is not requested, no
connection is constructed, nothing is emitted, and `joined`, `localStream` and
`peerConnection` keep their values. -/
theorem joinRoom_blank_room_rejected (env : Browser) (s : AppState)
    (hblank : ∀ c ∈ s.roomId.data, isWhiteSpace c = true) :
    joinRoom env s =
      { state := { s with alerts := s.alerts ++ ["Enter a room ID to join."] },
        thrown := none } ∧
    (joinRoom env s).state.calls = s.calls ∧
    issued s (joinRoom env s).state = [] ∧
    (joinRoom env s).state.connections = s.connections ∧
    (joinRoom env s).state.joined = s.joined ∧
    (joinRoom env s).state.localStream = s.localStream ∧
    (joinRoom env s).state.peerConnection = s.peerConnection := by
  have hr : joinRoom env s =
      { state := { s with alerts := s.alerts ++ ["Enter a room ID to join."] },
        thrown := none } := by
    simp [joinRoom, trim_of_whiteSpace s.roomId hblank]
  refine ⟨hr, by rw [hr], ?_, by rw [hr], by rw [hr], by rw [hr], by rw [hr]⟩
  exact issued_append _ _ _ (by rw [hr]; simp)

/-- Instance of C6: a room id of blanks and a tab, tried while in a call. -/
theorem joinRoom_blank_room_rejected_witness :
    (∀ c ∈ ({ inRoom with roomId := " \t " } : AppState).roomId.data, isWhiteSpace c = true) ∧
    (joinRoom chrome { inRoom with roomId := " \t " }).state.calls = inRoom.calls ∧
    (joinRoom chrome { inRoom with roomId := " \t " }).state.peerConnection =
      inRoom.peerConnection :=
  ⟨by decide,
   (joinRoom_blank_room_rejected chrome { inRoom with roomId := " \t " } (by decide)).2.1,
   (joinRoom_blank_room_rejected chrome { inRoom with roomId := " \t " }
      (by decide)).2.2.2.2.2.2⟩

/-- C10: with no peer connection, handling `ice-candidate` throws nothing,
calls no collaborator (so emits nothing), and leaves `joined`, `localStream`
and `peerConnection` as they were; it only writes two console lines. -/
theorem iceCandidate_without_session_is_noop (env : Browser) (s : AppState) (f : String)
    (c : RTCIceCandidate) (h : s.peerConnection = none) :
    (handleSignal env (.iceCandidate f c) s).thrown = none ∧
    (handleSignal env (.iceCandidate f c) s).state =
      { s with console := s.console ++
          [.log "ICE candidate received from:" f,
           .error "Error adding received ice candidate" .typeError] } ∧
    (handleSignal env (.iceCandidate f c) s).state.calls = s.calls ∧
    (handleSignal env (.iceCandidate f c) s).state.joined = s.joined ∧
    (handleSignal env (.iceCandidate f c) s).state.localStream = s.localStream ∧
    (handleSignal env (.iceCandidate f c) s).state.peerConnection = s.peerConnection := by
  have hr : handleSignal env (.iceCandidate f c) s =
      { state := { s with console := s.console ++
          [.log "ICE candidate received from:" f,
           .error "Error adding received ice candidate" .typeError] },
        thrown := none } := by
    simp [handleSignal, onIceCandidate, AppState.print, h]
  refine ⟨by rw [hr], by rw [hr], by rw [hr], by rw [hr], by rw [hr], by rw [hr]⟩

/-- Instance of C10: a candidate arrives after the call was ended. -/
theorem iceCandidate_without_session_is_noop_witness :
    ended.peerConnection = none ∧
    (handleSignal chrome (.iceCandidate "B" { candidate := "c1" }) ended).thrown = none ∧
    (handleSignal chrome (.iceCandidate "B" { candidate := "c1" }) ended).state.calls =
      ended.calls :=
  ⟨by decide,
   (iceCandidate_without_session_is_noop chrome ended "B" { candidate := "c1" } (by decide)).1,
   (iceCandidate_without_session_is_noop chrome ended "B" { candidate := "c1" }
      (by decide)).2.2.1⟩

/-- C2, as stated, fails: in a joined state that has sent no offer, an
incoming offer with empty SDP text is refused by `setRemoteDescription`; the
handler then performs that one call only and rejects, so no answer is created,
set or sent. -/
theorem incomingCall_refused_offer_counterexample :
    Reachable inRoom ∧
    (∃ pc, inRoom.peerConnection = some pc ∧ pc.localDescription = none) ∧
    issued inRoom
        (handleSignal chrome (.incomingCall "A" { type := .offer, sdp := "" }) inRoom).state =
      [.setRemoteDescription 0 { type := .offer, sdp := "" }] ∧
    (handleSignal chrome (.incomingCall "A" { type := .offer, sdp := "" }) inRoom).thrown =
      some (.domException "OperationError") ∧
    ¬ ∃ answer,
      issued inRoom
          (handleSignal chrome (.incomingCall "A" { type := .offer, sdp := "" }) inRoom).state =
        [.setRemoteDescription 0 { type := .offer, sdp := "" }, .createAnswer 0,
         .setLocalDescription 0 answer, .emit (.answerCall "A" answer)] := by
  have hi : issued inRoom
      (handleSignal chrome (.incomingCall "A" { type := .offer, sdp := "" }) inRoom).state =
      [.setRemoteDescription 0 { type := .offer, sdp := "" }] := by decide
  refine ⟨reachable_examples.2.1, ⟨_, rfl, rfl⟩, hi, by decide, ?_⟩
  rintro ⟨answer, ha⟩
  rw [hi] at ha
  simp at ha

/-- C2, amended: with a peer connection present (whether or not it has sent an
offer), handling `incoming-call` from `f` with offer `o` first calls
`setRemoteDescription(o)`.  If the connection accepts `o`, the handler goes on
with `createAnswer`, `setLocalDescription` with the answer just created, and
one `answer-call` message to `f` carrying that same answer, and nothing else.
If the connection refuses `o`, nothing more is performed and the handler
rejects with that error. -/
theorem incomingCall_answers_accepted_offer (env : Browser) (s : AppState)
    (pc : RTCPeerConnection) (f : String) (o : RTCSessionDescription)
    (h : s.peerConnection = some pc) :
    (handleSignal env (.incomingCall f o) s).thrown = env.setRemoteDescription pc o ∧
    (env.setRemoteDescription pc o = none →
      (handleSignal env (.incomingCall f o) s).state.calls =
        s.calls ++
          [.setRemoteDescription pc.id o, .createAnswer pc.id,
           .setLocalDescription pc.id
             { type := .answer, sdp := env.createAnswer { pc with remoteDescription := some o } },
           .emit (.answerCall f
             { type := .answer,
               sdp := env.createAnswer { pc with remoteDescription := some o } })]) ∧
    (∀ e, env.setRemoteDescription pc o = some e →
      (handleSignal env (.incomingCall f o) s).state.calls =
        s.calls ++ [.setRemoteDescription pc.id o]) := by
  have hp : (s.print (.log "Incoming call from:" f)).peerConnection = some pc := h
  obtain ⟨ht, hc⟩ := answerCall_active env f o _ pc hp
  refine ⟨ht, ?_, ?_⟩
  · intro hacc
    simp only [handleSignal, onIncomingCall]
    rw [hc, hacc]
    simp [AppState.print]
  · intro e hrej
    simp only [handleSignal, onIncomingCall]
    rw [hc, hrej]
    simp [AppState.print]

/-- Instance of amended C2: the joined client receives a well-formed offer from A. -/
theorem incomingCall_answers_accepted_offer_witness :
    inRoom.peerConnection =
      some { id := 0, room := "r1", senders := [{ id := 1 }, { id := 2 }],
             localDescription := none, remoteDescription := none, candidates := [] } ∧
    (handleSignal chrome (.incomingCall "A" { type := .offer, sdp := "v=0 theirs" })
        inRoom).state.calls =
      inRoom.calls ++
        [.setRemoteDescription 0 { type := .offer, sdp := "v=0 theirs" }, .createAnswer 0,
         .setLocalDescription 0 { type := .answer, sdp := "v=0 answer" },
         .emit (.answerCall "A" { type := .answer, sdp := "v=0 answer" })] :=
  ⟨by decide,
   (incomingCall_answers_accepted_offer chrome inRoom
      { id := 0, room := "r1", senders := [{ id := 1 }, { id := 2 }],
        localDescription := none, remoteDescription := none, candidates := [] }
      "A" { type := .offer, sdp := "v=0 theirs" } (by decide)).2.1 (by decide)⟩

/-- C3, as stated, fails: in a joined state with no remote description, two
`ice-candidate` messages are each passed to `addIceCandidate` on receipt (and
refused by the connection); when the remote description is later set by
`call-accepted`, the handler issues `setRemoteDescription` only, and neither
candidate has been applied. -/
theorem iceCandidate_not_buffered_counterexample :
    Reachable inRoom ∧
    (∃ pc, inRoom.peerConnection = some pc ∧ pc.remoteDescription = none) ∧
    issued inRoom
        (handleAll chrome
          [.iceCandidate "B" { candidate := "c1" }, .iceCandidate "B" { candidate := "c2" }]
          inRoom).1 =
      [.addIceCandidate 0 { candidate := "c1" }, .addIceCandidate 0 { candidate := "c2" }] ∧
    issued
        (handleAll chrome
          [.iceCandidate "B" { candidate := "c1" }, .iceCandidate "B" { candidate := "c2" },
           .userJoined "B"] inRoom).1
        (handleAll chrome
          [.iceCandidate "B" { candidate := "c1" }, .iceCandidate "B" { candidate := "c2" },
           .userJoined "B", .callAccepted "B" { type := .answer, sdp := "v=0 theirs" }]
          inRoom).1 =
      [.setRemoteDescription 0 { type := .answer, sdp := "v=0 theirs" }] ∧
    (handleAll chrome
        [.iceCandidate "B" { candidate := "c1" }, .iceCandidate "B" { candidate := "c2" },
         .userJoined "B", .callAccepted "B" { type := .answer, sdp := "v=0 theirs" }]
        inRoom).1.peerConnection.map (fun pc => (pc.remoteDescription, pc.candidates)) =
      some (some { type := .answer, sdp := "v=0 theirs" }, []) := by
  refine ⟨reachable_examples.2.1, ⟨_, rfl, rfl⟩, by decide, by decide, by decide⟩

/-- C3, amended: with a peer connection present (before or after a remote
description is set), each `ice-candidate` message of a run is passed to
`addIceCandidate` when it is received, once and in receipt order, and no
handler rejects; nothing is buffered, so handling `call-accepted` or
`incoming-call` afterwards issues no `addIceCandidate` call. -/
theorem iceCandidate_applied_on_receipt (env : Browser) (s : AppState)
    (pc : RTCPeerConnection) (msgs : List (String × RTCIceCandidate))
    (h : s.peerConnection = some pc) :
    (handleAll env (msgs.map fun m => Signal.iceCandidate m.1 m.2) s).1.calls =
      s.calls ++ msgs.map (fun m => Call.addIceCandidate pc.id m.2) ∧
    (handleAll env (msgs.map fun m => Signal.iceCandidate m.1 m.2) s).2 =
      msgs.map (fun _ => none) ∧
    (∀ f d n c, Call.addIceCandidate n c ∉
      issued (handleAll env (msgs.map fun m => Signal.iceCandidate m.1 m.2) s).1
        (handleSignal env (.callAccepted f d)
          (handleAll env (msgs.map fun m => Signal.iceCandidate m.1 m.2) s).1).state) ∧
    (∀ f d n c, Call.addIceCandidate n c ∉
      issued (handleAll env (msgs.map fun m => Signal.iceCandidate m.1 m.2) s).1
        (handleSignal env (.incomingCall f d)
          (handleAll env (msgs.map fun m => Signal.iceCandidate m.1 m.2) s).1).state) := by
  obtain ⟨hc, ht, pc2, hpc2, _⟩ := handleAll_iceCandidates env msgs s pc h
  refine ⟨hc, ht, ?_, ?_⟩
  · intro f d n c
    have hcalls := (onCallAccepted_active env f d _ pc2 hpc2).2
    simp only [handleSignal]
    rw [issued_append _ _ _ hcalls]
    simp
  · intro f d n c
    have hp : ((handleAll env (msgs.map fun m => Signal.iceCandidate m.1 m.2) s).1.print
        (.log "Incoming call from:" f)).peerConnection = some pc2 := hpc2
    have hcalls := (answerCall_active env f d _ pc2 hp).2
    have hi := issued_append
      (handleAll env (msgs.map fun m => Signal.iceCandidate m.1 m.2) s).1 _ _ hcalls
    simp only [handleSignal, onIncomingCall]
    rw [hi]
    cases env.setRemoteDescription pc2 d <;> simp

/-- Instance of amended C3: two candidates arrive before any remote description. -/
theorem iceCandidate_applied_on_receipt_witness :
    inRoom.peerConnection =
      some { id := 0, room := "r1", senders := [{ id := 1 }, { id := 2 }],
             localDescription := none, remoteDescription := none, candidates := [] } ∧
    (handleAll chrome
        [.iceCandidate "B" { candidate := "c1" }, .iceCandidate "B" { candidate := "c2" }]
        inRoom).1.calls =
      inRoom.calls ++
        [.addIceCandidate 0 { candidate := "c1" }, .addIceCandidate 0 { candidate := "c2" }] :=
  ⟨by decide,
   (iceCandidate_applied_on_receipt chrome inRoom
      { id := 0, room := "r1", senders := [{ id := 1 }, { id := 2 }],
        localDescription := none, remoteDescription := none, candidates := [] }
      [("B", { candidate := "c1" }), ("B", { candidate := "c2" })] (by decide)).1⟩

/-- C4, as stated, fails: in the state that has sent its own offer and has no
answer yet, an incoming offer is not discarded; the handler calls
`setRemoteDescription` with it, creates an answer and emits `answer-call`. -/
theorem glare_offer_not_discarded_counterexample :
    Reachable offering ∧
    Call.emit (.callUser "B" { type := .offer, sdp := "v=0 offer" }) ∈ offering.calls ∧
    offering.peerConnection.map (fun pc => (pc.localDescription, pc.remoteDescription)) =
      some (some { type := .offer, sdp := "v=0 offer" }, none) ∧
    issued offering
        (handleSignal chrome (.incomingCall "B" { type := .offer, sdp := "v=0 theirs" })
          offering).state =
      [.setRemoteDescription 0 { type := .offer, sdp := "v=0 theirs" }, .createAnswer 0,
       .setLocalDescription 0 { type := .answer, sdp := "v=0 answer" },
       .emit (.answerCall "B" { type := .answer, sdp := "v=0 answer" })] ∧
    ¬ (Call.setRemoteDescription 0 { type := .offer, sdp := "v=0 theirs" } ∉
        issued offering
          (handleSignal chrome (.incomingCall "B" { type := .offer, sdp := "v=0 theirs" })
            offering).state ∧
       Call.createAnswer 0 ∉
        issued offering
          (handleSignal chrome (.incomingCall "B" { type := .offer, sdp := "v=0 theirs" })
            offering).state ∧
       ∀ answer, Call.emit (.answerCall "B" answer) ∉
        issued offering
          (handleSignal chrome (.incomingCall "B" { type := .offer, sdp := "v=0 theirs" })
            offering).state) := by
  have hi : issued offering
      (handleSignal chrome (.incomingCall "B" { type := .offer, sdp := "v=0 theirs" })
        offering).state =
      [.setRemoteDescription 0 { type := .offer, sdp := "v=0 theirs" }, .createAnswer 0,
       .setLocalDescription 0 { type := .answer, sdp := "v=0 answer" },
       .emit (.answerCall "B" { type := .answer, sdp := "v=0 answer" })] := by decide
  refine ⟨reachable_examples.2.2.1, by decide, by decide, hi, ?_⟩
  rw [hi]
  simp

/-- C4, amended: in a state whose connection holds this client's own offer as
local description and no remote description yet, handling `incoming-call` from
`f` with offer `o` does not discard `o`: it calls `setRemoteDescription(o)`,
and if the connection accepts `o` it creates an answer, sets it as local
description and emits `answer-call` to `f`; if the connection refuses `o`,
nothing more is performed and the handler rejects with that error. -/
theorem glare_offer_is_processed (env : Browser) (s : AppState) (pc : RTCPeerConnection)
    (mine : RTCSessionDescription) (f : String) (o : RTCSessionDescription)
    (h : s.peerConnection = some pc) (_hmine : pc.localDescription = some mine)
    (_htype : mine.type = .offer) (_hnone : pc.remoteDescription = none) :
    (handleSignal env (.incomingCall f o) s).thrown = env.setRemoteDescription pc o ∧
    issued s (handleSignal env (.incomingCall f o) s).state =
      .setRemoteDescription pc.id o ::
        (match env.setRemoteDescription pc o with
         | some _ => []
         | none =>
           [.createAnswer pc.id,
            .setLocalDescription pc.id
              { type := .answer, sdp := env.createAnswer { pc with remoteDescription := some o } },
            .emit (.answerCall f
              { type := .answer,
                sdp := env.createAnswer { pc with remoteDescription := some o } })]) := by
  have hp : (s.print (.log "Incoming call from:" f)).peerConnection = some pc := h
  obtain ⟨ht, hc⟩ := answerCall_active env f o _ pc hp
  exact ⟨ht, issued_append s _ _ hc⟩

/-- Instance of amended C4: the offering client receives an offer from B. -/
theorem glare_offer_is_processed_witness :
    offering.peerConnection =
      some { id := 0, room := "r1", senders := [{ id := 1 }, { id := 2 }],
             localDescription := some { type := .offer, sdp := "v=0 offer" },
             remoteDescription := none, candidates := [] } ∧
    (handleSignal chrome (.incomingCall "B" { type := .offer, sdp := "v=0 theirs" })
        offering).thrown = none :=
  ⟨by decide,
   (glare_offer_is_processed chrome offering
      { id := 0, room := "r1", senders := [{ id := 1 }, { id := 2 }],
        localDescription := some { type := .offer, sdp := "v=0 offer" },
        remoteDescription := none, candidates := [] }
      { type := .offer, sdp := "v=0 offer" } "B" { type := .offer, sdp := "v=0 theirs" }
      (by decide) rfl rfl rfl).1⟩

/-- C7: when the room id is non-empty after trimming and media is granted,
`joinRoom` followed by `endCall` (directly, or after the render in between)
leaves the component idle: `joined` is false, `localStream` and
`peerConnection` are unset; the connection constructed by that `joinRoom` was
closed and every track of the acquired stream was stopped.  Candidates are
held nowhere but inside a connection, and none is left. -/
theorem joinRoom_then_endCall_is_idle (env : Browser) (s : AppState) (stream : MediaStream)
    (m : AppState) (hroom : trim s.roomId ≠ "") (hmedia : env.getUserMedia = .ok stream)
    (hm : m = (joinRoom env s).state ∨ m = commit s (joinRoom env s).state) :
    (joinRoom env s).thrown = none ∧
    (endCall m).thrown = none ∧
    Idle (endCall m).state ∧
    (joinRoom env s).state.peerConnection.map (fun pc => pc.id) = some s.connections ∧
    Call.newRTCPeerConnection s.connections ∈ issued s (joinRoom env s).state ∧
    Call.close s.connections ∈ issued m (endCall m).state ∧
    (∀ track ∈ stream.tracks, Call.stop track ∈ issued m (endCall m).state) ∧
    issued s (endCall m).state =
      [.getUserMedia, .newRTCPeerConnection s.connections] ++
        stream.tracks.map (.addTrack s.connections) ++ [.emit (.joinRoom s.roomId)] ++
        stream.tracks.map .stop ++ [.close s.connections] := by
  have hj := joinRoom_granted env s stream hroom hmedia
  have hmf : m.calls = (joinRoom env s).state.calls ∧
      m.localStream = (joinRoom env s).state.localStream ∧
      m.peerConnection = (joinRoom env s).state.peerConnection := by
    rcases hm with hm | hm
    · subst hm
      exact ⟨rfl, rfl, rfl⟩
    · subst hm
      obtain ⟨h1, _, h3, h4⟩ := commit_fields s (joinRoom env s).state
      exact ⟨h1, h3, h4⟩
  obtain ⟨hmc, hms, hmp⟩ := hmf
  rw [hj] at hmc hms hmp
  obtain ⟨he1, he2, he3, he4, he5⟩ := endCall_active m stream _ hms hmp
  have hji : issued s (joinRoom env s).state =
      [.getUserMedia, .newRTCPeerConnection s.connections] ++
        stream.tracks.map (.addTrack s.connections) ++ [.emit (.joinRoom s.roomId)] :=
    issued_append _ _ _ (by rw [hj])
  have hei : issued m (endCall m).state =
      stream.tracks.map .stop ++ [.close s.connections] :=
    issued_append _ _ _ he2
  refine ⟨by rw [hj], he1, ⟨he3, he4, he5⟩, by rw [hj]; rfl, ?_, ?_, ?_, ?_⟩
  · rw [hji]
    simp
  · rw [hei]
    simp
  · intro track htrack
    rw [hei]
    simp [htrack]
  · apply issued_append
    rw [he2, hmc]
    simp

/-- Instance of C7: join room r1, render, end the call. -/
theorem joinRoom_then_endCall_is_idle_witness :
    trim typed.roomId ≠ "" ∧
    Idle (endCall inRoom).state ∧
    issued typed (endCall inRoom).state =
      [.getUserMedia, .newRTCPeerConnection 0, .addTrack 0 { id := 1 }, .addTrack 0 { id := 2 },
       .emit (.joinRoom "r1"), .stop { id := 1 }, .stop { id := 2 }, .close 0] :=
  ⟨by decide,
   (joinRoom_then_endCall_is_idle chrome typed { id := 7, tracks := [{ id := 1 }, { id := 2 }] }
      inRoom (by decide) rfl (Or.inr rfl)).2.2.1,
   (joinRoom_then_endCall_is_idle chrome typed { id := 7, tracks := [{ id := 1 }, { id := 2 }] }
      inRoom (by decide) rfl (Or.inr rfl)).2.2.2.2.2.2.2⟩

/-- C8: `endCall` is idempotent.  For every state, a second run (directly, or
after the render in between) returns the state the first run left, throws
nothing and calls no collaborator, so no track is stopped and no connection is
closed again.  On every state with no stream and no connection `endCall` calls
no collaborator and throws nothing, and on every such state the component can
reach it returns the state unchanged. -/
theorem endCall_idempotent (s : AppState) :
    endCall (endCall s).state = endCall s ∧
    (endCall (endCall s).state).thrown = none ∧
    issued (endCall s).state (endCall (endCall s).state).state = [] ∧
    endCall (commit s (endCall s).state) =
      { state := commit s (endCall s).state, thrown := none } ∧
    (s.localStream = none → s.peerConnection = none →
      (endCall s).thrown = none ∧ (endCall s).state.calls = s.calls ∧
      issued s (endCall s).state = [] ∧
      (endCall s).state.localStream = none ∧ (endCall s).state.peerConnection = none) ∧
    (Reachable s → s.localStream = none → s.peerConnection = none →
      endCall s = { state := s, thrown := none }) := by
  have h1 : endCall (endCall s).state = endCall s := by
    cases hs : s.localStream <;> cases hp : s.peerConnection <;>
      cases hv : s.remoteVideoRef <;> simp [endCall, hs, hp, hv, AppState.call]
  refine ⟨h1, by rw [h1]; rfl, by rw [h1]; simp [issued], ?_, ?_, ?_⟩
  · cases hs : s.localStream <;> cases hp : s.peerConnection <;>
      cases hv : s.remoteVideoRef <;> simp [commit, endCall, hs, hp, hv, AppState.call]
  · intro hs hp
    have hc : (endCall s).state.calls = s.calls := by
      cases hv : s.remoteVideoRef <;> simp [endCall, hs, hp, hv]
    refine ⟨rfl, hc, ?_, rfl, ?_⟩
    · simp [issued, hc]
    · cases hv : s.remoteVideoRef <;> simp [endCall, hs, hp, hv]
  · intro hreach hs hp
    obtain ⟨c1, _, _, c4⟩ := reachable_consistent s hreach
    obtain ⟨room, j, ls, conn, lv, rv, n, cs, al, co⟩ := s
    simp only at hs hp c1 c4
    subst hs hp
    have hj : j = false := by simpa using c1.symm
    subst hj
    cases rv with
    | none => rfl
    | some v => simp at c4

/-- Instance of C8: ending the call twice from the joined state, and once more when idle. -/
theorem endCall_idempotent_witness :
    endCall (endCall inRoom).state = endCall inRoom ∧
    Reachable ended ∧ endCall ended = { state := ended, thrown := none } :=
  ⟨(endCall_idempotent inRoom).1, reachable_examples.2.2.2,
   (endCall_idempotent ended).2.2.2.2.2 reachable_examples.2.2.2 (by decide) (by decide)⟩

/-- C9, evaluated where it fails: after `joinRoom` and `endCall` the client has
no peer connection but is still subscribed; there the handlers of
`user-joined`, `incoming-call` and `call-accepted` each reject with a
`TypeError` (the dereference of `peerConnection.current`), while the
`ice-candidate` handler catches it.  None of them calls a collaborator or
changes `joined`, `localStream` or `peerConnection`. -/
theorem signal_without_session_rejects :
    Reachable ended ∧
    ended.peerConnection = none ∧
    (handleSignal chrome (.userJoined "B") ended).thrown = some .typeError ∧
    (handleSignal chrome (.incomingCall "B" { type := .offer, sdp := "v=0 theirs" })
      ended).thrown = some .typeError ∧
    (handleSignal chrome (.callAccepted "B" { type := .answer, sdp := "v=0 theirs" })
      ended).thrown = some .typeError ∧
    (handleSignal chrome (.iceCandidate "B" { candidate := "c1" }) ended).thrown = none ∧
    (∀ m ∈ [Signal.userJoined "B",
            Signal.incomingCall "B" { type := .offer, sdp := "v=0 theirs" },
            Signal.callAccepted "B" { type := .answer, sdp := "v=0 theirs" },
            Signal.iceCandidate "B" { candidate := "c1" }],
      (handleSignal chrome m ended).state.calls = ended.calls ∧
      (handleSignal chrome m ended).state.joined = ended.joined ∧
      (handleSignal chrome m ended).state.localStream = ended.localStream ∧
      (handleSignal chrome m ended).state.peerConnection = ended.peerConnection) := by
  refine ⟨reachable_examples.2.2.2, by decide, by decide, by decide, by decide, by decide,
    by decide⟩

end VideoCalling
